import Mathlib

/-!
Verification of the GenOps-AI governance core against its specification.

The repository ships two package files under src/: the top-level
genops package file (export surface) and the llamaindex provider
package file (re-exports plus a module-level auto_register() call).
The component implementations (usage tracker, cost aggregator, RAG
pipeline monitor, policy engine, registration) are referenced there but
their sources are not present, so those components are modelled here
from the specification text, faithfully to its words.  Costs are exact
decimals, embedded as rationals.
-/

namespace GenOps

/-! ## Telemetry records and stages -/

/-- Operation kinds of a telemetry record (spec data model:
embedding, retrieval, synthesis, generic call). -/
inductive OpKind where
  | embedding
  | retrieval
  | synthesis
  | genericCall
deriving DecidableEq, Repr

/-- Modelled from the spec: a stage record of a RAG pipeline run, as
consumed by the missing rag_monitor module: its stage kind and its
exact decimal cost estimate. -/
structure StageRecord where
  kind : OpKind
  cost : ℚ
deriving DecidableEq, Repr

/-! ## RAG Pipeline Monitor (claims C1, C3) -/

/-- Modelled from the spec: the summary produced by finalize_run in
the missing rag_monitor module: pipeline-run id, exact total cost,
stage count, and the out-of-order flag. -/
structure RAGSummary where
  runId : Nat
  totalCost : ℚ
  stageCount : Nat
  outOfOrder : Bool
deriving DecidableEq, Repr

/-- Canonical position of a stage in the embedding, retrieval,
synthesis order; generic calls rank last. -/
def canonicalIndex : OpKind → Nat
  | OpKind.embedding => 0
  | OpKind.retrieval => 1
  | OpKind.synthesis => 2
  | OpKind.genericCall => 3

/-- Whether a list of stages departs from the canonical stage order
(spec: stages recorded out of canonical order are accepted but flagged
out_of_order). -/
def stagesOutOfOrder : List StageRecord → Bool
  | [] => false
  | [_] => false
  | a :: b :: rest =>
      (canonicalIndex b.kind < canonicalIndex a.kind) || stagesOutOfOrder (b :: rest)

/-- Modelled from the spec: the per-run state kept by the missing
rag_monitor module: the stage records seen so far and, once finalized,
the stored summary. -/
structure RunState where
  stages : List StageRecord
  finalized : Option RAGSummary
deriving DecidableEq, Repr

/-- Modelled from the spec: the pipeline monitor state of the missing
rag_monitor module: per-run states keyed by run id, and the list of
summaries forwarded to the Cost Aggregator so far. -/
structure MonitorState where
  runs : List (Nat × RunState)
  forwarded : List RAGSummary
deriving DecidableEq, Repr

/-- Association-list lookup of a run state by run id. -/
def findRun : List (Nat × RunState) → Nat → Option RunState
  | [], _ => none
  | (k, r) :: rest, id => if k = id then some r else findRun rest id

/-- Association-list replacement of a run state by run id. -/
def setRun : List (Nat × RunState) → Nat → RunState → List (Nat × RunState)
  | [], id, r => [(id, r)]
  | (k, r0) :: rest, id, r => if k = id then (k, r) :: rest else (k, r0) :: setRun rest id r

/-- Modelled from the spec: begin_run of the missing rag_monitor
module creates an empty, unfinalized run state for the id if absent,
and leaves an existing run untouched. -/
def begin_run (st : MonitorState) (id : Nat) : MonitorState :=
  match findRun st.runs id with
  | some _ => st
  | none => { st with runs := setRun st.runs id ⟨[], none⟩ }

/-- Modelled from the spec: record_stage of the missing rag_monitor
module appends a stage record to the run's stage list (out-of-order
stages are accepted, not rejected); a stage for an unknown run id
first creates the run. -/
def record_stage (st : MonitorState) (id : Nat) (rec : StageRecord) : MonitorState :=
  match findRun st.runs id with
  | some r => { st with runs := setRun st.runs id { r with stages := r.stages ++ [rec] } }
  | none => { st with runs := setRun st.runs id ⟨[rec], none⟩ }

/-- Summary computed at finalization: total cost is the exact sum of
the per-stage costs, with the stage count and the out-of-order flag. -/
def mkSummary (id : Nat) (stages : List StageRecord) : RAGSummary :=
  ⟨id, (stages.map StageRecord.cost).sum, stages.length, stagesOutOfOrder stages⟩

/-- Modelled from the spec: finalize_run of the missing rag_monitor
module: on a run not yet finalized it computes the summary, stores it,
forwards it to the Cost Aggregator once, and returns it; on an already
finalized run it returns the stored summary unchanged without
forwarding again; on an unknown run id it returns none. -/
def finalize_run (st : MonitorState) (id : Nat) : Option RAGSummary × MonitorState :=
  match findRun st.runs id with
  | none => (none, st)
  | some r =>
    match r.finalized with
    | some s => (some s, st)
    | none =>
      let s := mkSummary id r.stages
      (some s,
        { runs := setRun st.runs id { r with finalized := some s },
          forwarded := st.forwarded ++ [s] })

/-- A monitor state holding exactly one unfinalized run with the given
stages, used to state roll-up properties of finalization. -/
def freshRunState (id : Nat) (stages : List StageRecord) : MonitorState :=
  ⟨[(id, ⟨stages, none⟩)], []⟩

/-! ## Top-level genops export surface (claim C9) -/

/-! ## Policy Engine (claim C2) -/

/-- Modelled from the spec: a budget policy of the missing policy
engine: its threshold value and whether its alerting is repeatable
(one-shot vs repeatable). -/
structure BudgetPolicy where
  threshold : ℚ
  repeatable : Bool
deriving DecidableEq, Repr

/-- Modelled from the spec: the alert de-duplication state the policy
engine keeps per (policy id, scope id) pair: whether the last observed
value was above the threshold, and whether an alert has already fired
for this pair. -/
structure AlertState where
  above : Bool
  alerted : Bool
deriving DecidableEq, Repr

/-- Initial de-duplication state: nothing observed, nothing alerted. -/
def initAlertState : AlertState := ⟨false, false⟩

/-- Modelled from the spec: one evaluation of the missing policy
engine for a single (policy id, scope id) pair.  An alert fires
exactly when the observed value crosses strictly above the threshold
(previous observation not above it, new observation strictly above it)
and either the policy is repeatable or no alert has fired yet for this
pair.  Returns the updated state and whether a BudgetAlert fired. -/
def evaluate (p : BudgetPolicy) (st : AlertState) (v : ℚ) : AlertState × Bool :=
  (⟨decide (p.threshold < v),
      st.alerted ||
        ((decide (p.threshold < v) && !st.above) && (p.repeatable || !st.alerted))⟩,
    (decide (p.threshold < v) && !st.above) && (p.repeatable || !st.alerted))

/-- Number of BudgetAlerts fired over a sequence of observed values,
starting from a given de-duplication state. -/
def alertsFrom (p : BudgetPolicy) (st : AlertState) : List ℚ → Nat
  | [] => 0
  | v :: vs =>
      (if (evaluate p st v).2 then 1 else 0) + alertsFrom p (evaluate p st v).1 vs

/-- Number of BudgetAlerts fired over a sequence of observed values
from the initial state. -/
def numAlerts (p : BudgetPolicy) (vs : List ℚ) : Nat :=
  alertsFrom p initAlertState vs

/-- Number of strict upward crossings of the threshold in a sequence
of observed values, given whether the previous value was above. -/
def crossingsFrom (T : ℚ) (above : Bool) : List ℚ → Nat
  | [] => 0
  | v :: vs =>
      (if decide (T < v) && !above then 1 else 0) + crossingsFrom T (decide (T < v)) vs

/-- Number of strict upward crossings of the threshold in a sequence
of observed values, starting below. -/
def numCrossings (T : ℚ) (vs : List ℚ) : Nat :=
  crossingsFrom T false vs

/-! ## Auto-Instrumentation Registry (claims C4, C5, C8) -/

/-- The observable call path of the wrapped library: either the
original, never-instrumented path, or a path wrapped by an adapter's
interception layer. -/
inductive CallPath where
  | original : CallPath
  | wrapped : CallPath → CallPath
deriving DecidableEq, Repr

/-- Registration states of the per-adapter state machine (spec:
unregistered, registered, active, inactive). -/
inductive RegState where
  | unregistered
  | registered
  | active
  | inactive
deriving DecidableEq, Repr

/-- The error reported to the caller of patch on an adapter/library
version mismatch. -/
structure CompatibilityError where
  message : String
deriving DecidableEq, Repr

/-- Modelled from the spec: the per-adapter RegistrationState of the
missing registration module: the registration state, the currently
observable call path, and the pre-patch call path saved for restore. -/
structure AdapterState where
  reg : RegState
  callPath : CallPath
  saved : Option CallPath
deriving DecidableEq, Repr

/-- Modelled from the spec: patch of the missing registration module.
Patching an already-active adapter is a no-op returning the current
state; a compatible patch saves the pre-patch call path, wraps it and
activates the adapter; a failed patch (incompatible library version)
reports a CompatibilityError, leaves the adapter unregistered and does
not touch the call path. -/
def patch (compat : Bool) (st : AdapterState) :
    Option CompatibilityError × AdapterState :=
  if st.reg = RegState.active then (none, st)
  else if compat then
    (none, ⟨RegState.active, CallPath.wrapped st.callPath, some st.callPath⟩)
  else
    (some ⟨"incompatible library version"⟩,
      ⟨RegState.unregistered, st.callPath, st.saved⟩)

/-- Modelled from the spec: unpatch of the missing registration
module: an active adapter restores the saved pre-patch call path
exactly and becomes inactive; unpatching a non-active adapter is a
no-op. -/
def unpatch (st : AdapterState) : AdapterState :=
  if st.reg = RegState.active then
    ⟨RegState.inactive, st.saved.getD st.callPath, none⟩
  else st

/-- Modelled from the spec: init of the missing auto_instrumentation
module activates the configured adapters by patching each of them. -/
def init (compat : Bool) (adapters : List AdapterState) : List AdapterState :=
  adapters.map (fun a => (patch compat a).2)

/-- Modelled from the spec: uninstrument of the missing
auto_instrumentation module unpatches every adapter, reversing init. -/
def uninstrument (adapters : List AdapterState) : List AdapterState :=
  adapters.map unpatch

/-- Modelled from the spec: auto_register of the missing registration
module: when the target library is importable it discovers the adapter
and registers it; when the library is absent it is a no-op that
returns normally rather than an error. -/
def auto_register (libAvailable : Bool) (st : AdapterState) : AdapterState :=
  if libAvailable then
    if st.reg = RegState.unregistered then { st with reg := RegState.registered } else st
  else st

/-! ## Usage Tracker and Attribute Normalizer (claim C6) -/

/-- Modelled from the spec: raw call metadata handed to the usage
tracker: possibly-absent model identity and operation kind, the cost
estimate, and the unique operation identifier. -/
structure CallContext where
  modelName : Option String
  opKind : Option OpKind
  costEst : ℚ
  opId : Nat
deriving DecidableEq, Repr

/-- The error raised by the attribute normalizer when required
attributes are absent: which of the two required attributes are
missing. -/
structure NormalizationError where
  missingModel : Bool
  missingOp : Bool
deriving DecidableEq, Repr

/-- Modelled from the spec: a telemetry record as produced by the
missing tracker module: operation id, canonical attributes, cost, and
quality tags. -/
structure TelemetryRecord where
  opId : Nat
  modelName : String
  kind : OpKind
  cost : ℚ
  tags : List String
deriving DecidableEq, Repr

/-- Modelled from the spec: the attribute normalizer of the missing
core module: fails with NormalizationError exactly when model identity
or operation kind is absent. -/
def normalize (ctx : CallContext) :
    Except NormalizationError (String × OpKind) :=
  match ctx.modelName, ctx.opKind with
  | some m, some k => Except.ok (m, k)
  | m, k => Except.error ⟨m.isNone, k.isNone⟩

/-- Modelled from the spec: record of the missing tracker module:
produces exactly one telemetry record per intercepted call; the
NormalizationError case is recovered locally by degrading to a
best-effort record tagged incomplete, never dropping the operation. -/
def record (ctx : CallContext) : TelemetryRecord :=
  match normalize ctx with
  | Except.ok (m, k) => ⟨ctx.opId, m, k, ctx.costEst, []⟩
  | Except.error _ =>
      ⟨ctx.opId, ctx.modelName.getD "unknown", ctx.opKind.getD OpKind.genericCall,
        ctx.costEst, ["incomplete"]⟩

/-! ## Cost Aggregator scope totals (claim C7) -/

/-- Modelled from the spec: one atomic fetch-or-create-and-add update
of the ScopeTotals table of the missing cost_aggregator module: the
scope id's cumulative cost is created at the delta or increased by
it. -/
def addCost : List (String × ℚ) → String → ℚ → List (String × ℚ)
  | [], s, c => [(s, c)]
  | (k, v) :: rest, s, c =>
      if k = s then (k, v + c) :: rest else (k, v) :: addCost rest s c

/-- Cumulative cost recorded for a scope id (zero before the scope is
created). -/
def lookupTotal : List (String × ℚ) → String → ℚ
  | [], _ => 0
  | (k, v) :: rest, s => if k = s then v else lookupTotal rest s

/-- Modelled from the spec: a whole ingestion history applied to the
ScopeTotals table.  The spec linearizes concurrent updates per scope
id, so any concurrent execution is embedded as some arrival order of
the atomic updates, each a (scope id, cost delta) pair. -/
def ingestSeq (m : List (String × ℚ)) (us : List (String × ℚ)) :
    List (String × ℚ) :=
  us.foldl (fun acc u => addCost acc u.1 u.2) m

/-! ## Module import of the llamaindex provider package (claim C10) -/

/-- Process state for the import model: whether the llamaindex
provider package module has been executed, whether the wrapped library
is importable, the adapter's registration state, and how many times
auto_register has been invoked. -/
structure ProcessState where
  moduleLoaded : Bool
  libAvailable : Bool
  adapter : AdapterState
  registerCalls : Nat
deriving DecidableEq, Repr

/-- The module body of src/src/genops/providers/llamaindex/init file:
after its re-export imports it invokes auto_register() exactly once at
module level. -/
def executeModuleBody (st : ProcessState) : ProcessState :=
  { st with moduleLoaded := true,
            adapter := auto_register st.libAvailable st.adapter,
            registerCalls := st.registerCalls + 1 }

/-- Python import semantics for the provider package: an already
loaded module is served from the per-process module cache without
re-executing its body; a first import executes the body. -/
def importLlamaindex (st : ProcessState) : ProcessState :=
  if st.moduleLoaded then st else executeModuleBody st

/-- The public export list of the genops package, transcribed from
src/src/genops/init file. -/
def genops_all : List String :=
  ["track_usage", "track", "enforce_policy", "GenOpsTelemetry",
   "init", "uninstrument", "status", "get_default_attributes"]

/-- The names bound at the top of the genops package by its import
statements, transcribed from src/src/genops/init file. -/
def genops_imported_names : List String :=
  ["track", "enforce_policy", "GenOpsTelemetry", "track_usage",
   "init", "uninstrument", "status", "get_default_attributes"]

end GenOps

namespace GenOps

/-- C1 helper: finalizing a fresh run returns the summary whose total
cost is the exact sum of the per-stage costs. -/
theorem finalize_fresh_total (id : Nat) (l : List StageRecord) :
    (finalize_run (freshRunState id l) id).1 =
      some (mkSummary id l) := by
  simp [finalize_run, freshRunState, findRun]

/-- C1: for any two ingestion orders of the same finite multiset of
stage records attributed to one pipeline-run, the finalized total cost
equals the exact sum of the individual records' costs, and the two
finalized totals coincide (no record counted twice, none lost). -/
theorem C1_rollup_exact_and_order_independent (id : Nat)
    (l₁ l₂ : List StageRecord) (h : l₁.Perm l₂) :
    (finalize_run (freshRunState id l₁) id).1.map RAGSummary.totalCost =
        some (l₁.map StageRecord.cost).sum ∧
    (finalize_run (freshRunState id l₁) id).1.map RAGSummary.totalCost =
      (finalize_run (freshRunState id l₂) id).1.map RAGSummary.totalCost := by
  rw [finalize_fresh_total, finalize_fresh_total]
  refine ⟨rfl, ?_⟩
  simp only [Option.map_some, mkSummary]
  exact congrArg some ((h.map StageRecord.cost).sum_eq)

/-- Concrete instance of C1: two orders of the same two stage records
finalize to the same exact total. -/
theorem C1_witness :
    ([⟨OpKind.embedding, 1/2⟩, ⟨OpKind.synthesis, 3⟩] : List StageRecord).Perm
        [⟨OpKind.synthesis, 3⟩, ⟨OpKind.embedding, 1/2⟩] ∧
    ((finalize_run (freshRunState 0 [⟨OpKind.embedding, 1/2⟩, ⟨OpKind.synthesis, 3⟩]) 0).1.map
        RAGSummary.totalCost = some ((7 : ℚ)/2) ∧
      (finalize_run (freshRunState 0 [⟨OpKind.embedding, 1/2⟩, ⟨OpKind.synthesis, 3⟩]) 0).1.map
          RAGSummary.totalCost =
        (finalize_run (freshRunState 0 [⟨OpKind.synthesis, 3⟩, ⟨OpKind.embedding, 1/2⟩]) 0).1.map
          RAGSummary.totalCost) := by
  have hp : ([⟨OpKind.embedding, 1/2⟩, ⟨OpKind.synthesis, 3⟩] : List StageRecord).Perm
      [⟨OpKind.synthesis, 3⟩, ⟨OpKind.embedding, 1/2⟩] := List.Perm.swap _ _ _
  have h := C1_rollup_exact_and_order_independent 0
    [⟨OpKind.embedding, 1/2⟩, ⟨OpKind.synthesis, 3⟩]
    [⟨OpKind.synthesis, 3⟩, ⟨OpKind.embedding, 1/2⟩] hp
  refine ⟨hp, ?_, h.2⟩
  rw [h.1]
  norm_num

/-- Looking up a run id right after storing a run state for that id
returns exactly the stored run state. -/
theorem findRun_setRun (l : List (Nat × RunState)) (id : Nat) (r : RunState) :
    findRun (setRun l id r) id = some r := by
  induction l with
  | nil => simp [setRun, findRun]
  | cons hd tl ih =>
      by_cases hk : hd.1 = id
      · simp [setRun, findRun, hk]
      · simpa [setRun, findRun, hk] using ih

/-- C3: calling finalize_run a second time on a run id returns a
summary identical to the first call's, the second call forwards
nothing, and across both calls the summary is forwarded to the Cost
Aggregator exactly once. -/
theorem C3_finalize_idempotent (st : MonitorState) (id : Nat) (r : RunState)
    (h : findRun st.runs id = some r) (hf : r.finalized = none) :
    (finalize_run (finalize_run st id).2 id).1 = (finalize_run st id).1 ∧
    (finalize_run (finalize_run st id).2 id).2.forwarded =
      (finalize_run st id).2.forwarded ∧
    (finalize_run st id).2.forwarded = st.forwarded ++ [mkSummary id r.stages] := by
  simp [finalize_run, h, hf, findRun_setRun]

/-- Concrete instance of C3: double finalization of a one-stage run
returns identical summaries and forwards once. -/
theorem C3_witness :
    findRun (freshRunState 5 [⟨OpKind.retrieval, 2⟩]).runs 5 =
        some ⟨[⟨OpKind.retrieval, 2⟩], none⟩ ∧
    ((finalize_run (finalize_run (freshRunState 5 [⟨OpKind.retrieval, 2⟩]) 5).2 5).1 =
        (finalize_run (freshRunState 5 [⟨OpKind.retrieval, 2⟩]) 5).1 ∧
      (finalize_run (finalize_run (freshRunState 5 [⟨OpKind.retrieval, 2⟩]) 5).2 5).2.forwarded =
        (finalize_run (freshRunState 5 [⟨OpKind.retrieval, 2⟩]) 5).2.forwarded ∧
      (finalize_run (freshRunState 5 [⟨OpKind.retrieval, 2⟩]) 5).2.forwarded =
        (freshRunState 5 [⟨OpKind.retrieval, 2⟩]).forwarded ++
          [mkSummary 5 [⟨OpKind.retrieval, 2⟩]]) := by
  refine ⟨by decide, C3_finalize_idempotent _ 5 ⟨[⟨OpKind.retrieval, 2⟩], none⟩ (by decide) rfl⟩

/-- C2 helper: a repeatable policy fires exactly one alert per strict
upward crossing, from any starting state. -/
theorem alertsFrom_repeatable (p : BudgetPolicy) (hp : p.repeatable = true)
    (vs : List ℚ) : ∀ a b : Bool,
    alertsFrom p ⟨a, b⟩ vs = crossingsFrom p.threshold a vs := by
  induction vs with
  | nil => intro a b; rfl
  | cons v vs ih =>
      intro a b
      simp only [alertsFrom, crossingsFrom, evaluate, hp, Bool.true_or, Bool.and_true]
      rw [ih]

/-- C2 helper: a non-repeatable policy that has already alerted for
this (policy id, scope id) pair never fires again. -/
theorem alertsFrom_alerted (p : BudgetPolicy) (hp : p.repeatable = false)
    (vs : List ℚ) : ∀ a : Bool, alertsFrom p ⟨a, true⟩ vs = 0 := by
  induction vs with
  | nil => intro a; rfl
  | cons v vs ih =>
      intro a
      simp only [alertsFrom, evaluate, hp, Bool.false_or, Bool.not_true, Bool.and_false,
        Bool.or_false, if_false]
      rw [ih]
      simp

/-- C2 helper: a non-repeatable policy that has not yet alerted fires
exactly once if the sequence crosses upward at all, and never
otherwise, from any starting above-flag. -/
theorem alertsFrom_not_alerted (p : BudgetPolicy) (hp : p.repeatable = false)
    (vs : List ℚ) : ∀ a : Bool,
    alertsFrom p ⟨a, false⟩ vs = min 1 (crossingsFrom p.threshold a vs) := by
  induction vs with
  | nil => intro a; rfl
  | cons v vs ih =>
      intro a
      by_cases hc : (decide (p.threshold < v) && !a) = true
      · simp only [alertsFrom, crossingsFrom, evaluate, hp, Bool.false_or, Bool.not_false,
          Bool.and_true, hc, if_true, Bool.or_true, Bool.false_or]
        rw [alertsFrom_alerted p hp vs]
        omega
      · simp only [alertsFrom, crossingsFrom, evaluate, hp, Bool.false_or, Bool.not_false,
          Bool.and_true, hc, if_false, Bool.or_false]
        rw [ih]
        simp

/-- C2: over any sequence of observed values, a non-repeatable policy
produces exactly one BudgetAlert when the sequence crosses strictly
above the threshold at least once (and none otherwise) — so dropping
below and re-crossing yields no second alert — while a repeatable
policy produces one alert per strict upward crossing, so re-crossing
does yield a second alert. -/
theorem C2_alert_crossing_semantics (p : BudgetPolicy) (vs : List ℚ) :
    (p.repeatable = false →
      numAlerts p vs = min 1 (numCrossings p.threshold vs)) ∧
    (p.repeatable = true →
      numAlerts p vs = numCrossings p.threshold vs) :=
  ⟨fun h => alertsFrom_not_alerted p h vs false,
   fun h => alertsFrom_repeatable p h vs false false⟩

/-- Concrete instance of C2: with threshold 10 and repeatable=false,
the sequence 5, 11, 3, 12 crosses upward twice but fires exactly one
alert. -/
theorem C2_witness :
    (⟨10, false⟩ : BudgetPolicy).repeatable = false ∧
    numAlerts ⟨10, false⟩ [5, 11, 3, 12] =
      min 1 (numCrossings (10 : ℚ) [5, 11, 3, 12]) :=
  ⟨rfl, (C2_alert_crossing_semantics ⟨10, false⟩ [5, 11, 3, 12]).1 rfl⟩

/-- C4 helper: a successful patch of a non-active adapter followed by
an unpatch restores the pre-patch call path exactly and leaves no
saved wrapper behind. -/
theorem patch_unpatch_restores (st : AdapterState) (h : st.reg ≠ RegState.active) :
    (unpatch (patch true st).2).callPath = st.callPath ∧
    (unpatch (patch true st).2).saved = none := by
  simp [patch, unpatch, h]

/-- C4: patch followed by unpatch restores the observable call path
exactly with no residual wrapping, patching an already-active adapter
is a no-op returning the current state, and uninstrument restores
every adapter's call path to what it was before init. -/
theorem C4_instrumentation_reversible :
    (∀ st : AdapterState, st.reg ≠ RegState.active →
        (unpatch (patch true st).2).callPath = st.callPath ∧
        (unpatch (patch true st).2).saved = none) ∧
    (∀ st : AdapterState, st.reg = RegState.active → patch true st = (none, st)) ∧
    (∀ adapters : List AdapterState,
        (∀ a ∈ adapters, a.reg ≠ RegState.active) →
        (uninstrument (init true adapters)).map AdapterState.callPath =
          adapters.map AdapterState.callPath) := by
  refine ⟨patch_unpatch_restores, ?_, ?_⟩
  · intro st h
    simp [patch, h]
  · intro adapters h
    simp only [uninstrument, init, List.map_map]
    exact List.map_congr_left fun a ha => (patch_unpatch_restores a (h a ha)).1

/-- Concrete instance of C4: a registered adapter with the original
call path, patched then unpatched, is observably back on the original
call path. -/
theorem C4_witness :
    ((⟨RegState.registered, CallPath.original, none⟩ : AdapterState).reg ≠
        RegState.active) ∧
    (unpatch (patch true ⟨RegState.registered, CallPath.original, none⟩).2).callPath =
      CallPath.original := by
  have h := C4_instrumentation_reversible.1
    ⟨RegState.registered, CallPath.original, none⟩ (by decide)
  exact ⟨by decide, h.1⟩

/-- C5: a failed patch attempt reports a CompatibilityError, leaves
the adapter unregistered, and leaves the instrumented call path and
the saved path exactly as they were (no partial patching). -/
theorem C5_failed_patch_atomic (st : AdapterState) (h : st.reg ≠ RegState.active) :
    (patch false st).1.isSome = true ∧
    (patch false st).2.reg = RegState.unregistered ∧
    (patch false st).2.callPath = st.callPath ∧
    (patch false st).2.saved = st.saved := by
  simp [patch, h]

/-- Concrete instance of C5: a failed patch of a registered adapter
reports an error and changes nothing observable. -/
theorem C5_witness :
    ((⟨RegState.registered, CallPath.original, none⟩ : AdapterState).reg ≠
        RegState.active) ∧
    ((patch false ⟨RegState.registered, CallPath.original, none⟩).1.isSome = true ∧
      (patch false ⟨RegState.registered, CallPath.original, none⟩).2.reg =
        RegState.unregistered ∧
      (patch false ⟨RegState.registered, CallPath.original, none⟩).2.callPath =
        CallPath.original) := by
  have h := C5_failed_patch_atomic ⟨RegState.registered, CallPath.original, none⟩ (by decide)
  exact ⟨by decide, h.1, h.2.1, h.2.2.1⟩

/-- C6: record produces a telemetry record for every call context,
carrying the call's operation id, and whenever a required attribute
(model identity or operation kind) is absent the produced record is
tagged incomplete instead of being dropped. -/
theorem C6_record_never_drops (ctx : CallContext) :
    (record ctx).opId = ctx.opId ∧
    ((ctx.modelName = none ∨ ctx.opKind = none) →
      "incomplete" ∈ (record ctx).tags) := by
  constructor
  · cases hm : ctx.modelName <;> cases hk : ctx.opKind <;>
      simp [record, normalize, hm, hk]
  · intro h
    cases hm : ctx.modelName <;> cases hk : ctx.opKind <;>
      simp_all [record, normalize]

/-- Concrete instance of C6: a call context missing the model identity
still yields a record, with its operation id and an incomplete tag. -/
theorem C6_witness :
    ((⟨none, some OpKind.embedding, 1, 7⟩ : CallContext).modelName = none ∨
      (⟨none, some OpKind.embedding, 1, 7⟩ : CallContext).opKind = none) ∧
    ((record ⟨none, some OpKind.embedding, 1, 7⟩).opId = 7 ∧
      "incomplete" ∈ (record ⟨none, some OpKind.embedding, 1, 7⟩).tags) := by
  have h := C6_record_never_drops ⟨none, some OpKind.embedding, 1, 7⟩
  exact ⟨Or.inl rfl, h.1, h.2 (Or.inl rfl)⟩

/-- C8: auto_register with the target library absent is a no-op that
returns normally with the state unchanged, and with the library
importable it registers an unregistered adapter. -/
theorem C8_auto_register_noop_when_absent (st : AdapterState) :
    auto_register false st = st ∧
    (st.reg = RegState.unregistered →
      (auto_register true st).reg = RegState.registered) := by
  constructor
  · rfl
  · intro h
    simp [auto_register, h]

/-- Concrete instance of C8: on the fresh unregistered adapter,
auto_register without the library changes nothing and with the library
registers it. -/
theorem C8_witness :
    (⟨RegState.unregistered, CallPath.original, none⟩ : AdapterState).reg =
        RegState.unregistered ∧
    (auto_register false ⟨RegState.unregistered, CallPath.original, none⟩ =
        ⟨RegState.unregistered, CallPath.original, none⟩ ∧
      (auto_register true ⟨RegState.unregistered, CallPath.original, none⟩).reg =
        RegState.registered) := by
  have h := C8_auto_register_noop_when_absent
    ⟨RegState.unregistered, CallPath.original, none⟩
  exact ⟨rfl, h.1, h.2 rfl⟩

/-- C10: importing the llamaindex provider package for the first time
executes the module body, invoking auto_register exactly once at
module level; every further import is served from the module cache and
changes nothing. -/
theorem C10_import_registers_once (st : ProcessState)
    (h : st.moduleLoaded = false) (n : Nat) :
    (importLlamaindex st).registerCalls = st.registerCalls + 1 ∧
    (importLlamaindex st).adapter = auto_register st.libAvailable st.adapter ∧
    importLlamaindex^[n] (importLlamaindex st) = importLlamaindex st := by
  refine ⟨?_, ?_, ?_⟩
  · simp [importLlamaindex, executeModuleBody, h]
  · simp [importLlamaindex, executeModuleBody, h]
  · apply Function.iterate_fixed
    simp [importLlamaindex, executeModuleBody, h]

/-- Concrete instance of C10: from a fresh process with the library
available, the first import invokes auto_register once and three
further imports change nothing. -/
theorem C10_witness :
    (⟨false, true, ⟨RegState.unregistered, CallPath.original, none⟩, 0⟩ :
        ProcessState).moduleLoaded = false ∧
    ((importLlamaindex
        ⟨false, true, ⟨RegState.unregistered, CallPath.original, none⟩, 0⟩).registerCalls =
      0 + 1 ∧
    importLlamaindex^[3]
        (importLlamaindex
          ⟨false, true, ⟨RegState.unregistered, CallPath.original, none⟩, 0⟩) =
      importLlamaindex
        ⟨false, true, ⟨RegState.unregistered, CallPath.original, none⟩, 0⟩) := by
  have h := C10_import_registers_once
    ⟨false, true, ⟨RegState.unregistered, CallPath.original, none⟩, 0⟩ rfl 3
  exact ⟨rfl, h.1, h.2.2⟩

/-- C9: init, uninstrument, status and get_default_attributes are all
bound by the genops package's imports and listed in its public export
list. -/
theorem C9_export_surface :
    ("init" ∈ genops_all ∧ "init" ∈ genops_imported_names) ∧
    ("uninstrument" ∈ genops_all ∧ "uninstrument" ∈ genops_imported_names) ∧
    ("status" ∈ genops_all ∧ "status" ∈ genops_imported_names) ∧
    ("get_default_attributes" ∈ genops_all ∧
      "get_default_attributes" ∈ genops_imported_names) := by
  decide

/-- C7 helper: an atomic update adds its delta to its own scope's
cumulative cost. -/
theorem lookupTotal_addCost_same (m : List (String × ℚ)) (s : String) (c : ℚ) :
    lookupTotal (addCost m s c) s = lookupTotal m s + c := by
  induction m with
  | nil => simp [addCost, lookupTotal]
  | cons hd tl ih =>
      by_cases hk : hd.1 = s
      · simp [addCost, lookupTotal, hk]
      · simp [addCost, lookupTotal, hk, ih]

/-- C7 helper: an atomic update leaves every other scope's cumulative
cost untouched. -/
theorem lookupTotal_addCost_other (m : List (String × ℚ)) (s s' : String)
    (c : ℚ) (h : s' ≠ s) :
    lookupTotal (addCost m s c) s' = lookupTotal m s' := by
  induction m with
  | nil => simp [addCost, lookupTotal, Ne.symm h]
  | cons hd tl ih =>
      by_cases hk : hd.1 = s
      · subst hk
        simp [addCost, lookupTotal, Ne.symm h]
      · simp [addCost, lookupTotal, hk, ih]

/-- C7 helper: after applying any linearized sequence of atomic scope
updates, each scope's cumulative cost is its prior cost plus the exact
sum of the deltas addressed to that scope; deltas addressed to other
scopes contribute nothing. -/
theorem lookupTotal_ingestSeq (us : List (String × ℚ)) :
    ∀ (m : List (String × ℚ)) (s : String),
    lookupTotal (ingestSeq m us) s =
      lookupTotal m s + ((us.filter (fun u => u.1 = s)).map Prod.snd).sum := by
  induction us with
  | nil => intro m s; simp [ingestSeq]
  | cons u us ih =>
      intro m s
      show lookupTotal (ingestSeq (addCost m u.1 u.2) us) s = _
      rw [ih]
      by_cases hu : u.1 = s
      · subst hu
        rw [lookupTotal_addCost_same]
        simp [List.filter_cons]
        ring
      · rw [lookupTotal_addCost_other m u.1 s u.2 (fun hs => hu hs.symm)]
        simp [List.filter_cons, hu]

/-- C7 helper: the ingestion history of a thousand one-dollar updates
to scope a, filtered to scope a, is a thousand one-dollar deltas. -/
theorem filter_replicate_same (n : Nat) :
    (((List.replicate n (("a", (1 : ℚ))))).filter (fun u => u.1 = "a")).map Prod.snd =
      List.replicate n (1 : ℚ) := by
  induction n with
  | zero => rfl
  | succ n ih => simp [List.replicate_succ, List.filter_cons, ih]

/-- C7 helper: the same history holds no deltas for scope b. -/
theorem filter_replicate_other (n : Nat) :
    ((List.replicate n (("a", (1 : ℚ)))).filter (fun u => u.1 = "b")) = [] := by
  induction n with
  | zero => rfl
  | succ n ih => simp [List.replicate_succ, List.filter_cons, ih]

/-- C7: updates to one scope id are linearized with no lost updates —
after any arrival order of the atomic updates, a scope's total is
exactly the prior total plus the sum of the deltas addressed to it,
and updates to other scope ids never interfere; in particular a
thousand one-dollar ingests to one scope id yield exactly a thousand
dollars while an untouched scope stays at zero. -/
theorem C7_linearized_no_lost_updates :
    (∀ (m us : List (String × ℚ)) (s : String),
        lookupTotal (ingestSeq m us) s =
          lookupTotal m s + ((us.filter (fun u => u.1 = s)).map Prod.snd).sum) ∧
    lookupTotal (ingestSeq [] (List.replicate 1000 ("a", (1 : ℚ)))) "a" = 1000 ∧
    lookupTotal (ingestSeq [] (List.replicate 1000 ("a", (1 : ℚ)))) "b" = 0 := by
  have hgen : ∀ (m us : List (String × ℚ)) (s : String),
      lookupTotal (ingestSeq m us) s =
        lookupTotal m s + ((us.filter (fun u => u.1 = s)).map Prod.snd).sum :=
    fun m us s => lookupTotal_ingestSeq us m s
  refine ⟨hgen, ?_, ?_⟩
  · rw [hgen [] (List.replicate 1000 ("a", (1 : ℚ))) "a"]
    rw [filter_replicate_same, List.sum_replicate, nsmul_eq_mul]
    norm_num [lookupTotal]
  · rw [hgen [] (List.replicate 1000 ("a", (1 : ℚ))) "b"]
    rw [filter_replicate_other]
    simp [lookupTotal]

end GenOps
